import Mathlib

/-!
Verification of the Lookup selection widget (markgregg/lookup).

Shallow embedding of the widget's state machine and pure helpers:
  * `JsValue` models the JavaScript values items can take (strings or records);
  * `filterItems` embeds the filter hook (useFilteredItems.filterItems);
  * `navAction` embeds the keyboard-navigation hook (useKeyboardNavigation);
  * `SelState` with its close/toggle handlers embeds the selection state of
    Lookup.tsx (displayedSelected / workingSelected and friends);
  * `settleFulfil` / `settleReject` / `Conc` embed the async provider flow of
    `executeCallback` (abort controller, validation, error handling);
  * `resolvePosition` embeds the dropdown placement resolution.

Machine numbers of the browser are modelled as `Int` (pixel geometry) and
list indices as `Int` where the source uses the sentinel -1.
-/

namespace LookupModel

/-- A JavaScript runtime value as far as the widget inspects one: items are
strings or records (objects); `num`, `boolean`, `nullv`, `undefinedV` cover the
other primitives the validation code distinguishes with `typeof`. Record
field values are themselves values. -/
inductive JsValue where
  | str (s : String)
  | num (n : Int)
  | boolean (b : Bool)
  | nullv
  | undefinedV
  | obj (fields : List (String × JsValue))

/-- JS `typeof v === 'string'`. -/
def isStringV : JsValue → Bool
  | .str _ => true
  | _ => false

/-- JS `typeof v === 'object' && v !== null` (note: `typeof null` is
`'object'` in JS, which is why the source excludes null explicitly). -/
def isObjNonNull : JsValue → Bool
  | .obj _ => true
  | _ => false

/-- JS `String(v)` coercion, to the extent the filter uses it. `String` of an
object is "[object Object]" (the default `toString`), without recursion. -/
def jsToString : JsValue → String
  | .str s => s
  | .num n => toString n
  | .boolean b => cond b "true" "false"
  | .nullv => "null"
  | .undefinedV => "undefined"
  | .obj _ => "[object Object]"

/-- JS property access `v[field]`: a field of a record, `undefined` when the
field is absent or the value is not an object (access on null/undefined would
throw in JS; that path is unreachable in the modelled flows). -/
def getField (v : JsValue) (field : String) : JsValue :=
  match v with
  | .obj fields => (fields.lookup field).getD .undefinedV
  | _ => .undefinedV

/-- JS `Object.values(v)`: field values of a record; for a string, its
characters (JS coerces primitives to wrapper objects); empty for the other
primitives (null/undefined would throw in JS, unreachable here). -/
def objValues : JsValue → List JsValue
  | .obj fields => fields.map (·.2)
  | .str s => s.data.map (fun c => JsValue.str c.toString)
  | _ => []

/-- JS `String.prototype.toLowerCase` (ASCII-faithful), character by
character over the string's underlying character list. -/
def jsToLower (s : String) : String := ⟨s.data.map Char.toLower⟩

/-- JS `hay.includes(needle)`: contiguous substring test. -/
def strIncludes (hay needle : List Char) : Bool :=
  needle.isPrefixOf hay ||
    match hay with
    | [] => false
    | _ :: t => strIncludes t needle

/-- `hay.includes(needle)` on strings. -/
def jsIncludes (hay needle : String) : Bool := strIncludes hay.data needle.data

/-- Widget type: `'combobox' | 'dropdown'`. -/
inductive LookupType where
  | combobox
  | dropdown
deriving DecidableEq

/-- The configuration the filter hook closes over: `isStringType`,
`matchFields` (absent, or a possibly empty list of field names) and `type`. -/
structure FilterConfig where
  isStringType : Bool
  matchFields : Option (List String)
  type : LookupType

/-- Whether a record item matches the query under the hook's field rules:
`matchFields && matchFields.length > 0` restricts to the named fields,
otherwise every field value's string form is searched. -/
def objectMatches (cfg : FilterConfig) (searchLower : String) (item : JsValue) : Bool :=
  match cfg.matchFields with
  | some mf =>
      if mf.length > 0 then
        mf.any (fun f => jsIncludes (jsToLower (jsToString (getField item f))) searchLower)
      else
        (objValues item).any (fun v => jsIncludes (jsToLower (jsToString v)) searchLower)
  | none =>
      (objValues item).any (fun v => jsIncludes (jsToLower (jsToString v)) searchLower)

/-- `filterItems(searchText, baseItems)` from useFilteredItems: empty query
returns everything, dropdown type never filters, string items match the query
case-insensitively against their value, record items per `objectMatches`. -/
def filterItems (cfg : FilterConfig) (searchText : String) (baseItems : List JsValue) :
    List JsValue :=
  if searchText = "" then baseItems
  else if cfg.type = .dropdown then baseItems
  else
    let searchLower := jsToLower searchText
    if cfg.isStringType then
      baseItems.filter (fun item => jsIncludes (jsToLower (jsToString item)) searchLower)
    else
      baseItems.filter (fun item => objectMatches cfg searchLower item)

/-! ### Keyboard navigation (useKeyboardNavigation.handleKeyDown) -/

/-- The keys the hook distinguishes. -/
inductive Key where
  | arrowDown
  | arrowUp
  | enter
  | escape
  | tab
  | other
deriving DecidableEq

/-- The intent the hook dispatches to its callbacks: open the dropdown, move
the focus index, select the focused item, close, or do nothing. -/
inductive NavAction where
  | openList
  | navigate (newIndex : Int)
  | selectAt (index : Int)
  | close
  | noop
deriving DecidableEq

/-- `handleKeyDown` of useKeyboardNavigation as a pure function of
(isOpen, focusedIndex, itemCount, key). Closed: ArrowDown/Enter open, all
else ignored. Open: ArrowDown/ArrowUp move with clamping
(`focusedIndex < itemCount - 1 ? focusedIndex + 1 : focusedIndex` and
`focusedIndex > 0 ? focusedIndex - 1 : focusedIndex`), Enter selects when
`0 <= focusedIndex < itemCount`, Escape and Tab close. -/
def navAction (isOpen : Bool) (focusedIndex : Int) (itemCount : Nat) (k : Key) : NavAction :=
  if !isOpen then
    if k = .arrowDown ∨ k = .enter then .openList else .noop
  else
    match k with
    | .arrowDown =>
        .navigate (if focusedIndex < (itemCount : Int) - 1 then focusedIndex + 1 else focusedIndex)
    | .arrowUp =>
        .navigate (if focusedIndex > 0 then focusedIndex - 1 else focusedIndex)
    | .enter =>
        if 0 ≤ focusedIndex ∧ focusedIndex < (itemCount : Int) then .selectAt focusedIndex
        else .noop
    | .escape => .close
    | .tab => .close
    | .other => .noop

/-! ### Selection state (Lookup.tsx)

`displayedSelected` is the committed selection, `workingSelected` the
tentative one used in multi-select sessions. In multi-select flows both hold
either `null`/`undefined` (modelled as `none`) or an array (modelled as
`some` list); the source's `Array.isArray` coercions for scalar values are
noted where relevant. -/

/-- The slice of Lookup component state the selection claims are about. -/
structure SelState (α : Type) where
  isOpen : Bool
  isFocused : Bool
  focusedIndex : Int
  displayed : Option (List α)
  working : Option (List α)
deriving DecidableEq

/-- `handleClickOutside`: close, unfocus, and in multi-select with a non-null
working selection commit it (`setDisplayedSelected(workingSelected);
setWorkingSelected(null)`). -/
def handleClickOutside (multipleSelect : Bool) (s : SelState α) : SelState α :=
  let s1 := { s with isOpen := false, isFocused := false }
  if multipleSelect && s1.working.isSome then
    { s1 with displayed := s1.working, working := none }
  else s1

/-- `handleBlur`: identical commit logic, triggered by input blur. -/
def handleBlur (multipleSelect : Bool) (s : SelState α) : SelState α :=
  let s1 := { s with isFocused := false, isOpen := false }
  if multipleSelect && s1.working.isSome then
    { s1 with displayed := s1.working, working := none }
  else s1

/-- `handleKeyboardClose` (Escape/Tab): close, reset focus index, blur the
input, and the same commit logic. (The blur it requests fires `handleBlur`
in a later event, when `working` is already `none`, so no double commit.) -/
def handleKeyboardClose (multipleSelect : Bool) (s : SelState α) : SelState α :=
  let s1 := { s with isOpen := false, focusedIndex := -1 }
  if multipleSelect && s1.working.isSome then
    { s1 with displayed := s1.working, working := none }
  else s1

/-- `handleFocus` restricted to the selection-relevant fields: open, reset
focus index, and in multi-select initialize the working selection from the
committed one (`setWorkingSelected(displayedSelected)`). -/
def handleFocusOpen (multipleSelect : Bool) (s : SelState α) : SelState α :=
  { s with isFocused := true, isOpen := true, focusedIndex := -1,
           working := if multipleSelect then s.displayed else s.working }

/-- `activeSelectedArray`: the selection the toggle logic edits —
`workingSelected ?? displayedSelected`, coerced to an array (`[]` for
null/undefined). -/
def activeSelectedArray (multipleSelect : Bool) (s : SelState α) : List α :=
  if multipleSelect then
    match s.working with
    | some w => w
    | none => s.displayed.getD []
  else s.displayed.getD []

/-- The toggle computed in `handleKeyboardSelect` (and identically in the
VirtualizedList row click handler): if an entry with the item's identity is
already selected, remove every such entry, else append the item. `keyOf` is
the identity: the string itself for string items (`s === item`), the
`itemKey` field for records (`s[itemKey] === item[itemKey]`). -/
def toggleSelect {α κ : Type} [DecidableEq κ] (keyOf : α → κ) (sel : List α) (item : α) :
    List α :=
  if sel.any (fun s => keyOf s = keyOf item) then
    sel.filter (fun s => ¬ keyOf s = keyOf item)
  else
    sel ++ [item]

/-- A multi-select toggle step of the session: `handleKeyboardSelect` /
row click compute `toggleSelect` over `activeSelectedArray` and
`handleSelectItem` stores it in the working selection
(`setWorkingSelected(newSelected)`). -/
def toggleWorking {α κ : Type} [DecidableEq κ] (keyOf : α → κ) (s : SelState α) (item : α) :
    SelState α :=
  { s with working := some (toggleSelect keyOf (activeSelectedArray true s) item) }

/-! ### Selection-change payloads (onSelect) -/

/-- The value handed to the host's `onSelect` callback: a plain item or an
array. -/
inductive Payload (α : Type) where
  | item (v : α)
  | list (l : List α)
deriving DecidableEq

/-- Whether a payload is an array. -/
def payloadIsArray : Payload α → Bool
  | .item _ => false
  | .list _ => true

/-- `selectedArray.filter((_, i) => i !== index)`. -/
def removeAtIdx (sel : List α) (index : Nat) : List α :=
  (sel.enum.filter (fun p => p.1 ≠ index)).map (·.2)

/-- The `onSelect` payload of `handleRemoveSelected` (pill dismissal):
guarded by multi-select and a non-empty selection, it removes the indexed
entry and passes `newSelected.length === 1 ? newSelected[0] : newSelected`
— a plain item when exactly one remains, the array otherwise. `none` when
no callback fires. -/
def handleRemoveSelected (multipleSelect : Bool) (selectedArray : List α) (index : Nat) :
    Option (Payload α) :=
  if ¬ multipleSelect ∨ selectedArray.length = 0 then none
  else
    match removeAtIdx selectedArray index with
    | [x] => some (.item x)
    | ns => some (.list ns)

/-- The `onSelect` payload of `handleClearAll`: the empty array (guarded by
multi-select). -/
def handleClearAllPayload (multipleSelect : Bool) : Option (Payload α) :=
  if multipleSelect then some (.list ([] : List α)) else none

/-- The `onSelect` payload of `handleSelectItem`: in multi-select the toggled
array computed by the caller is passed through as an array, in single-select
the item itself. -/
def handleSelectItemPayload (multipleSelect : Bool) (toggled : List α) (item : α) :
    Payload α :=
  if multipleSelect then .list toggled else .item item

/-! ### Async provider flow (`executeCallback` in Lookup.tsx)

Each invocation of `executeCallback` first aborts the previous
AbortController and installs a fresh one, so a call's captured `signal`
becomes aborted exactly when a later call starts. The provider promise
itself is never actually cancelled; the settle handlers below are what runs
when it fulfils or rejects. -/

/-- The component state the async flow mutates. -/
structure AsyncState where
  filteredItems : List JsValue
  error : Option String
  isLoading : Bool
  focusedIndex : Int

/-- What the provider promise fulfils with: an array of values, or any
non-array value (`Array.isArray` fails). -/
inductive ProviderResult where
  | arr (elems : List JsValue)
  | notArr (v : JsValue)

/-- A promise rejection value: either an `Error` instance carrying `name`
and `message`, or any non-Error value. -/
structure Rejection where
  isError : Bool
  name : String
  message : String

/-- The `catch` block of `executeCallback`: an `Error` named `AbortError`
is swallowed, anything else sets the error message (the generic fallback
text for non-Error rejections) and clears the candidate set. The `finally`
clears the loading flag in every case. The caught signal's aborted state is
NOT consulted here. -/
def applyCatch (e : Rejection) (st : AsyncState) : AsyncState :=
  if e.isError && e.name = "AbortError" then
    { st with isLoading := false }
  else
    { st with
        error := some (if e.isError then e.message else
          "Failed to load items. Please try again."),
        filteredItems := [],
        isLoading := false }

/-- The provider promise fulfilling, i.e. the `try` body after `await`
plus `catch`/`finally`: an aborted signal discards the result (`return`
runs only `finally`); a non-array result throws the array validation error;
a non-empty array whose FIRST element is neither a string nor a non-null
object throws the element validation error; both are caught by `applyCatch`
(thrown `Error`s are named "Error", not "AbortError"). Otherwise the
results are filtered into the candidate set and, when non-empty, the focus
index moves to 0. -/
def settleFulfil (cfg : FilterConfig) (searchText : String) (aborted : Bool)
    (results : ProviderResult) (st : AsyncState) : AsyncState :=
  if aborted then { st with isLoading := false }
  else
    match results with
    | .notArr _ =>
        applyCatch ⟨true, "Error", "Async callback must return an array of items"⟩ st
    | .arr [] =>
        { st with filteredItems := filterItems cfg searchText [], isLoading := false }
    | .arr (e :: rest) =>
        if isStringV e || isObjNonNull e then
          { st with
              filteredItems := filterItems cfg searchText (e :: rest),
              focusedIndex := 0,
              isLoading := false }
        else
          applyCatch ⟨true, "Error", "Items must be strings or objects"⟩ st

/-- The provider promise rejecting: the rejection goes straight to the
`catch` block (no aborted-signal check on this path). -/
def settleReject (e : Rejection) (st : AsyncState) : AsyncState :=
  applyCatch e st

/-- The async flow with its in-flight bookkeeping: `started` counts the
`executeCallback` invocations so far; call `i` (0-based) was superseded —
its AbortController aborted — exactly when a later call has started,
i.e. when `i + 2 ≤ started`. -/
structure Conc where
  started : Nat
  state : AsyncState

/-- Whether call `i`'s captured signal is aborted in configuration `c`. -/
def callAborted (c : Conc) (i : Nat) : Bool := i + 2 ≤ c.started

/-- Starting `executeCallback` for query `value`: aborts the previous
controller and installs a new one (counted by `started`), then either the
minimum-length bail-out (clear candidates, stop loading) or entering the
loading state while the provider call is in flight. -/
def startCall (minSearchLength : Nat) (value : String) (c : Conc) : Conc :=
  { started := c.started + 1,
    state :=
      if value.length < minSearchLength then
        { c.state with filteredItems := [], isLoading := false }
      else
        { c.state with isLoading := true } }

/-- Call `i` fulfilling with `results` in configuration `c`. -/
def settleFulfilCall (cfg : FilterConfig) (searchText : String) (i : Nat)
    (results : ProviderResult) (c : Conc) : Conc :=
  { c with state := settleFulfil cfg searchText (callAborted c i) results c.state }

/-- Call `i` rejecting with `e` in configuration `c` (the catch block never
reads the signal, so `i` is unused — exactly the point of claim C2). -/
def settleRejectCall (_i : Nat) (e : Rejection) (c : Conc) : Conc :=
  { c with state := settleReject e c.state }

/-! ### Item shape inference (Lookup.tsx `isStringType`) -/

/-- The `items` prop: a static collection or an async provider callback. -/
inductive Source where
  | static (l : List JsValue)
  | callback

/-- `baseItems`: the static collection, `[]` for a callback source
(`Array.isArray(items) ? items : []`). -/
def baseItems : Source → List JsValue
  | .static l => l
  | .callback => []

/-- `isStringType`: `baseItems.length > 0 && typeof baseItems[0] ===
'string'` — the item shape inferred from the first element of the static
collection. -/
def isStringType (src : Source) : Bool :=
  (baseItems src).length > 0 &&
    (match (baseItems src).head? with
     | some v => isStringV v
     | none => false)

/-! ### Dropdown positioning (Lookup.tsx) -/

/-- Dropdown placement, including the `auto` configuration value. -/
inductive DropdownPosition where
  | auto
  | below
  | above
  | left
  | right
deriving DecidableEq

/-- The `dropdownWidth` prop: `'auto' | number | undefined`. -/
inductive DropWidth where
  | auto
  | px (w : Int)
  | unset

/-- The trigger container's bounding client rect (pixels). -/
structure Rect where
  top : Int
  bottom : Int
  left : Int
  right : Int
  width : Int

/-- `listHeight = Math.min(hasContent ? filteredItems.length * rowHeight :
0, maxHeight)` where `hasContent` is a non-empty candidate set. -/
def listHeight (count : Nat) (rowHeight maxHeight : Int) : Int :=
  min (if count > 0 then (count : Int) * rowHeight else 0) maxHeight

/-- `estimatedHeight = Math.min(listHeight || maxHeight, maxHeight)` — JS
`||` replaces a zero (falsy) list height with `maxHeight`. -/
def estimatedHeight (lh maxHeight : Int) : Int :=
  min (if lh = 0 then maxHeight else lh) maxHeight

/-- `estimatedWidth`: a configured pixel width, else the trigger's width
(both for `'auto'` and for an unset prop). -/
def estimatedWidth (dw : DropWidth) (rectWidth : Int) : Int :=
  match dw with
  | .px w => w
  | _ => rectWidth

/-- `chooseAutoPosition`: below if it fits below; else right/left when the
width fits on that side and the height fits from the trigger's top down
(the source's `canFitRight`/`canFitLeft` conjunctions, written inline here;
ties between the two sides go to whichever has strictly more space, right
when equal); else above if it fits above; else below. -/
def chooseAutoPosition (availableBottom availableTop availableRight availableLeft
    availableFromTop estimatedH estimatedW : Int) : DropdownPosition :=
  if availableBottom ≥ estimatedH then .below
  else if (availableRight ≥ estimatedW ∧ availableFromTop ≥ estimatedH) ∧
      (availableLeft ≥ estimatedW ∧ availableFromTop ≥ estimatedH) then
    (if availableLeft > availableRight then .left else .right)
  else if availableRight ≥ estimatedW ∧ availableFromTop ≥ estimatedH then .right
  else if availableLeft ≥ estimatedW ∧ availableFromTop ≥ estimatedH then .left
  else if availableTop ≥ estimatedH then .above
  else .below

/-- The position-resolution effect: derives the available spaces from the
trigger rect and viewport, the estimated height and width, and resolves
`auto` through `chooseAutoPosition`; any fixed placement is used as-is. -/
def resolvePosition (pos : DropdownPosition) (innerWidth innerHeight : Int) (rect : Rect)
    (count : Nat) (rowHeight maxHeight : Int) (dw : DropWidth) : DropdownPosition :=
  let availableBottom := innerHeight - rect.bottom
  let availableTop := rect.top
  let availableRight := innerWidth - rect.right
  let availableLeft := rect.left
  let availableFromTop := innerHeight - rect.top
  let estH := estimatedHeight (listHeight count rowHeight maxHeight) maxHeight
  let estW := estimatedWidth dw rect.width
  if pos = .auto then
    chooseAutoPosition availableBottom availableTop availableRight availableLeft
      availableFromTop estH estW
  else pos

/-- The placement policy as §4.4 of the specification words it, for
comparison against the code: the priority list below → right → left →
above → below-fallback, with the strictly-more-space tie-break between the
two horizontal sides. -/
def specChoosePlacement (spaceBelow spaceAbove spaceRight spaceLeft spaceTopToBottom
    height width : Int) : DropdownPosition :=
  if spaceBelow ≥ height then .below
  else if spaceRight ≥ width ∧ spaceTopToBottom ≥ height ∧ spaceLeft ≥ width ∧
      spaceLeft > spaceRight then .left
  else if spaceRight ≥ width ∧ spaceTopToBottom ≥ height then .right
  else if spaceLeft ≥ width ∧ spaceTopToBottom ≥ height then .left
  else if spaceAbove ≥ height then .above
  else .below

/-- The estimated height exactly as the claim's words have it:
`min(candidate-count × row-height, configured max height)`. -/
def specEstimatedHeight (count : Nat) (rowHeight maxHeight : Int) : Int :=
  min ((count : Int) * rowHeight) maxHeight

/-- The full placement resolution as claim C8 states it (spec height
formula, spec priority order, fixed placements bypassing). -/
def specResolvePosition (pos : DropdownPosition) (innerWidth innerHeight : Int) (rect : Rect)
    (count : Nat) (rowHeight maxHeight : Int) (dw : DropWidth) : DropdownPosition :=
  if pos = .auto then
    specChoosePlacement (innerHeight - rect.bottom) rect.top (innerWidth - rect.right)
      rect.left (innerHeight - rect.top)
      (specEstimatedHeight count rowHeight maxHeight) (estimatedWidth dw rect.width)
  else pos

/-- The C9 session: starting closed with committed selection `l`, open in
multi-select (focus initializes the working copy), toggle `item` twice, and
close by clicking outside. -/
def doubleToggleSession {α κ : Type} [DecidableEq κ] (keyOf : α → κ) (l : List α)
    (item : α) : SelState α :=
  handleClickOutside true
    (toggleWorking keyOf
      (toggleWorking keyOf (handleFocusOpen true ⟨false, false, -1, some l, none⟩) item)
      item)

/-- The C2 trace: call 0 (query "ab") is started, then superseded by call 1
(query "abc"); call 0 then rejects with an ordinary `Error` named "Error". -/
def c2TraceStart : Conc :=
  startCall 0 "abc" (startCall 0 "ab" ⟨0, ⟨[.str "x"], none, false, -1⟩⟩)

/-- The C2 trace after the superseded call's rejection lands. -/
def c2TraceEnd : Conc := settleRejectCall 0 ⟨true, "Error", "boom"⟩ c2TraceStart

/-! ## Theorems for the claims -/

/-- C7 counterexample: for an async provider source (no static sample) the
inferred item shape is NOT string — `isStringType` evaluates to `false`
(record shape) — contradicting the claim's "defaults to string". -/
theorem C7_counterexample : isStringType Source.callback = false := rfl

/-- C7 (amended): the item shape is inferred from the first element of the
static collection, and defaults to the record (non-string) shape — not the
string shape — whenever the source is an async provider or the static
collection is empty. -/
theorem C7_shape_inference (v : JsValue) (l : List JsValue) :
    isStringType Source.callback = false ∧
    isStringType (Source.static []) = false ∧
    isStringType (Source.static (v :: l)) = isStringV v := by
  refine ⟨rfl, rfl, ?_⟩
  simp [isStringType, baseItems]

/-- C4 counterexample: with the dropdown open, focus index -1 ("none") and
two items, ArrowUp leaves the focus index at -1, whereas the claim's formula
`max(focusIndex-1, 0)` demands 0. -/
theorem C4_counterexample :
    navAction true (-1) 2 .arrowUp = .navigate (-1) ∧
    max ((-1 : Int) - 1) 0 = 0 ∧
    NavAction.navigate (-1) ≠ NavAction.navigate (max ((-1 : Int) - 1) 0) := by
  decide

/-- C4 (amended): ArrowDown moves the focus to `min(focusIndex+1,
itemCount-1)` whenever the focus index does not already exceed the last
index (in particular from -1), and leaves a stale out-of-range index
unchanged; ArrowUp moves to `max(focusIndex-1, 0)` for focus indices ≥ 0
but leaves -1 ("none") unchanged rather than moving to 0; both clamp at the
boundaries, never wrapping. -/
theorem C4_navigation_clamps (fi : Int) (ic : Nat) :
    (fi ≤ (ic : Int) - 1 →
      navAction true fi ic .arrowDown = .navigate (min (fi + 1) ((ic : Int) - 1))) ∧
    ((ic : Int) - 1 < fi → navAction true fi ic .arrowDown = .navigate fi) ∧
    (0 ≤ fi → navAction true fi ic .arrowUp = .navigate (max (fi - 1) 0)) ∧
    (fi < 0 → navAction true fi ic .arrowUp = .navigate fi) := by
  have hdown : navAction true fi ic .arrowDown =
      .navigate (if fi < (ic : Int) - 1 then fi + 1 else fi) := rfl
  have hup : navAction true fi ic .arrowUp =
      .navigate (if fi > 0 then fi - 1 else fi) := rfl
  refine ⟨?_, ?_, ?_, ?_⟩ <;> intro h
  · rw [hdown]; congr 1; split_ifs with h' <;> omega
  · rw [hdown]; congr 1; split_ifs with h' <;> omega
  · rw [hup]; congr 1; split_ifs with h' <;> omega
  · rw [hup]; congr 1; split_ifs with h' <;> omega

/-- Witness for C4 (amended) at focus index 0 with three items. -/
theorem C4_navigation_clamps_witness :
    navAction true 0 3 .arrowDown = .navigate (min ((0 : Int) + 1) ((3 : Int) - 1)) ∧
    navAction true 0 3 .arrowUp = .navigate (max ((0 : Int) - 1) 0) :=
  ⟨(C4_navigation_clamps 0 3).1 (by decide), (C4_navigation_clamps 0 3).2.2.1 (by decide)⟩

/-- C6 counterexample: in multi-select with committed selection `["a","b"]`,
dismissing the pill at index 1 leaves exactly one item, and the notification
callback receives the plain item `"a"` — not an array. -/
theorem C6_counterexample :
    handleRemoveSelected true ["a", "b"] 1 = some (Payload.item "a") ∧
    payloadIsArray (Payload.item "a") = false := by
  exact ⟨rfl, rfl⟩

/-- C6 (amended): row toggles and clear-all always notify with an array (the
empty array on clear-all) and single-select notifies with a plain item, but
pill removal notifies with a plain item exactly when one item remains after
the removal, and with an array otherwise. -/
theorem C6_payload_shapes (toggled sel : List String) (item : String) (i : Nat) :
    payloadIsArray (handleSelectItemPayload true toggled item) = true ∧
    (handleClearAllPayload true : Option (Payload String)) = some (Payload.list []) ∧
    handleSelectItemPayload false toggled item = Payload.item item ∧
    (∀ p, handleRemoveSelected true sel i = some p →
      (payloadIsArray p = false ↔ (removeAtIdx sel i).length = 1)) := by
  refine ⟨rfl, rfl, rfl, ?_⟩
  intro p hp
  by_cases hs : sel.length = 0
  · simp [handleRemoveSelected, hs] at hp
  · rw [handleRemoveSelected, if_neg (by simp [hs])] at hp
    rcases hr : removeAtIdx sel i with - | ⟨x, - | ⟨y, t⟩⟩ <;> rw [hr] at hp
    · cases hp; simp [payloadIsArray, hr]
    · cases hp; simp [payloadIsArray, hr]
    · cases hp; simp [payloadIsArray, hr]

/-- Witness for C6 (amended): toggling notifies with an array, and removing
index 1 from a three-element selection leaves two items, so the payload is
an array. -/
theorem C6_payload_shapes_witness :
    payloadIsArray (handleSelectItemPayload true ["a"] "b") = true ∧
    (payloadIsArray (Payload.list ["a", "c"]) = false ↔
      (removeAtIdx ["a", "b", "c"] 1).length = 1) :=
  ⟨(C6_payload_shapes ["a"] ["a", "b", "c"] "b" 1).1,
   (C6_payload_shapes ["a"] ["a", "b", "c"] "b" 1).2.2.2 (Payload.list ["a", "c"]) rfl⟩

/-- C1: in a multi-select session every close path — outside click, blur,
and the Escape/Tab keyboard close — commits a non-null tentative
(working) selection into the committed (displayed) selection and clears the
tentative one; with no tentative selection no merge happens and the
committed selection is left unchanged. All three paths close the dropdown. -/
theorem C1_close_commits (α : Type) (s : SelState α) :
    (∀ w, s.working = some w →
      (handleClickOutside true s).displayed = some w ∧
      (handleClickOutside true s).working = none ∧
      (handleBlur true s).displayed = some w ∧
      (handleBlur true s).working = none ∧
      (handleKeyboardClose true s).displayed = some w ∧
      (handleKeyboardClose true s).working = none) ∧
    (s.working = none →
      (handleClickOutside true s).displayed = s.displayed ∧
      (handleClickOutside true s).working = none ∧
      (handleBlur true s).displayed = s.displayed ∧
      (handleBlur true s).working = none ∧
      (handleKeyboardClose true s).displayed = s.displayed ∧
      (handleKeyboardClose true s).working = none) ∧
    (handleClickOutside true s).isOpen = false ∧
    (handleBlur true s).isOpen = false ∧
    (handleKeyboardClose true s).isOpen = false := by
  unfold handleClickOutside handleBlur handleKeyboardClose
  refine ⟨?_, ?_, ?_⟩
  · intro w hw
    simp [hw]
  · intro hw
    simp [hw]
  · cases hw : s.working <;> simp [hw]

/-- Witness for C1: a concrete open multi-select session with tentative
selection `["y"]` commits it on outside click; one with no tentative
selection keeps the committed `["x"]`. -/
theorem C1_close_commits_witness :
    (handleClickOutside true (⟨true, true, 0, some ["x"], some ["y"]⟩ : SelState String)).displayed
        = some ["y"] ∧
    (handleClickOutside true (⟨true, true, 0, some ["x"], none⟩ : SelState String)).displayed
        = some ["x"] :=
  ⟨((C1_close_commits String ⟨true, true, 0, some ["x"], some ["y"]⟩).1 ["y"] rfl).1,
   ((C1_close_commits String ⟨true, true, 0, some ["x"], none⟩).2.1 rfl).1⟩

/-- C2 counterexample: call 0 is superseded by call 1, then call 0 rejects
with an ordinary error ("boom"). The catch block never consults the aborted
signal, so the superseded call's rejection is NOT discarded: it overwrites
the displayed error (previously none) and clears the candidate set
(previously one item), contradicting the claim's unconditional discard. -/
theorem C2_counterexample :
    callAborted c2TraceStart 0 = true ∧
    c2TraceStart.state.error = none ∧
    c2TraceStart.state.filteredItems = [.str "x"] ∧
    c2TraceEnd.state.error = some "boom" ∧
    c2TraceEnd.state.filteredItems = [] := by
  refine ⟨rfl, rfl, rfl, rfl, rfl⟩

/-- C2 (amended): starting a new call supersedes (aborts the controller of)
the previous in-flight call; a superseded call's FULFILMENT is discarded
unconditionally — the state is untouched except for clearing the loading
flag; a superseded call's REJECTION is discarded only when it is an `Error`
named "AbortError"; any other rejection (superseded or not) surfaces its
message (or the generic fallback for non-Error rejections) and clears the
candidate set. -/
theorem C2_superseded_discard (cfg : FilterConfig) (q value : String)
    (minSearchLength : Nat) (c : Conc) (i : Nat) (r : ProviderResult) (e : Rejection) :
    (1 ≤ c.started → callAborted (startCall minSearchLength value c) (c.started - 1) = true) ∧
    (callAborted c i = true →
      (settleFulfilCall cfg q i r c).state = { c.state with isLoading := false }) ∧
    (e.isError = true → e.name = "AbortError" →
      (settleRejectCall i e c).state = { c.state with isLoading := false }) ∧
    (¬ (e.isError = true ∧ e.name = "AbortError") →
      (settleRejectCall i e c).state =
        { c.state with
            error := some (if e.isError then e.message
              else "Failed to load items. Please try again."),
            filteredItems := [],
            isLoading := false }) := by
  refine ⟨?_, ?_, ?_, ?_⟩
  · intro h
    simp only [callAborted, startCall, decide_eq_true_eq]
    omega
  · intro h
    simp only [settleFulfilCall, settleFulfil, h, if_true]
  · intro hE hN
    simp [settleRejectCall, settleReject, applyCatch, hE, hN]
  · intro h
    have : (e.isError && e.name = "AbortError") = false := by
      rcases Bool.eq_false_or_eq_true e.isError with hb | hb
      · by_cases hn : e.name = "AbortError"
        · exact absurd ⟨hb, hn⟩ h
        · simp [hn]
      · simp [hb]
    simp [settleRejectCall, settleReject, applyCatch, this]

/-- Witness for C2 (amended): in the concrete two-call trace, a rejection
of the superseded call named "AbortError" is swallowed, a fulfilment of the
superseded call is discarded, and the "boom" rejection is surfaced. -/
theorem C2_superseded_discard_witness :
    callAborted (startCall 0 "abc" (startCall 0 "ab" ⟨0, ⟨[.str "x"], none, false, -1⟩⟩))
        ((startCall 0 "ab" (⟨0, ⟨[.str "x"], none, false, -1⟩⟩ : Conc)).started - 1) = true ∧
    (settleFulfilCall ⟨false, none, .combobox⟩ "ab" 0 (.arr [.str "z"]) c2TraceStart).state =
      { c2TraceStart.state with isLoading := false } ∧
    (settleRejectCall 0 ⟨true, "AbortError", "aborted"⟩ c2TraceStart).state =
      { c2TraceStart.state with isLoading := false } ∧
    (settleRejectCall 0 ⟨true, "Error", "boom"⟩ c2TraceStart).state =
      { c2TraceStart.state with
          error := some (if true then "boom" else "Failed to load items. Please try again."),
          filteredItems := [],
          isLoading := false } := by
  have h := C2_superseded_discard ⟨false, none, .combobox⟩ "ab" "abc" 0
    (startCall 0 "ab" ⟨0, ⟨[.str "x"], none, false, -1⟩⟩) 0 (.arr [.str "z"])
    ⟨true, "AbortError", "aborted"⟩
  have h2 := C2_superseded_discard ⟨false, none, .combobox⟩ "ab" "abc" 0
    c2TraceStart 0 (.arr [.str "z"]) ⟨true, "Error", "boom"⟩
  exact ⟨h.1 (by decide), h2.2.1 (by decide),
    (C2_superseded_discard ⟨false, none, .combobox⟩ "ab" "abc" 0 c2TraceStart 0
        (.arr [.str "z"]) ⟨true, "AbortError", "aborted"⟩).2.2.1 rfl rfl,
    h2.2.2.2 (by decide)⟩

/-- C5 counterexample: the provider resolves with the array `["a", null]`.
The second element is neither a string nor a non-null object, yet validation
passes — only the FIRST element is checked — so no error is surfaced and
both elements enter the candidate set, contradicting the claim's
every-element validation. -/
theorem C5_counterexample :
    settleFulfil ⟨false, none, .combobox⟩ "" false (.arr [.str "a", .nullv])
        ⟨[], none, true, -1⟩ =
      ⟨[.str "a", .nullv], none, false, 0⟩ ∧
    (isStringV JsValue.nullv || isObjNonNull JsValue.nullv) = false := by
  exact ⟨rfl, rfl⟩

/-- C5 (amended): a fulfilment is accepted only if it is an array whose
FIRST element (when non-empty) is a string or a non-null object; elements
past the first are not validated. A non-array fulfilment fails with the
array-required message, a bad first element with the element message; both
failures surface the error and clear the candidate set. On acceptance the
results are filtered into the candidate set without touching the error, and
the focus moves to 0 for non-empty results. -/
theorem C5_validation (cfg : FilterConfig) (q : String) (st : AsyncState)
    (v e : JsValue) (rest : List JsValue) :
    settleFulfil cfg q false (.notArr v) st =
      { st with error := some "Async callback must return an array of items",
                filteredItems := [], isLoading := false } ∧
    settleFulfil cfg q false (.arr []) st =
      { st with filteredItems := filterItems cfg q [], isLoading := false } ∧
    ((isStringV e || isObjNonNull e) = false →
      settleFulfil cfg q false (.arr (e :: rest)) st =
        { st with error := some "Items must be strings or objects",
                  filteredItems := [], isLoading := false }) ∧
    ((isStringV e || isObjNonNull e) = true →
      settleFulfil cfg q false (.arr (e :: rest)) st =
        { st with filteredItems := filterItems cfg q (e :: rest),
                  focusedIndex := 0, isLoading := false }) := by
  refine ⟨?_, rfl, ?_, ?_⟩
  · show applyCatch ⟨true, "Error", "Async callback must return an array of items"⟩ st = _
    rw [applyCatch, if_neg (by decide)]
    rfl
  · intro h
    show (if (isStringV e || isObjNonNull e) = true then _ else _) = _
    rw [if_neg (by simp [h])]
    show applyCatch ⟨true, "Error", "Items must be strings or objects"⟩ st = _
    rw [applyCatch, if_neg (by decide)]
    rfl
  · intro h
    show (if (isStringV e || isObjNonNull e) = true then _ else _) = _
    rw [if_pos h]

/-- Witness for C5 (amended): a fulfilment whose first element is the string
"a" is accepted, and one whose first element is a number is rejected with
the element validation error. -/
theorem C5_validation_witness :
    settleFulfil ⟨true, none, .combobox⟩ "" false (.arr [.str "a"]) ⟨[], none, true, -1⟩ =
      { (⟨[], none, true, -1⟩ : AsyncState) with
          filteredItems := filterItems ⟨true, none, .combobox⟩ "" [.str "a"],
          focusedIndex := 0, isLoading := false } ∧
    settleFulfil ⟨true, none, .combobox⟩ "" false (.arr [.num 7]) ⟨[], none, true, -1⟩ =
      { (⟨[], none, true, -1⟩ : AsyncState) with
          error := some "Items must be strings or objects",
          filteredItems := [], isLoading := false } :=
  ⟨(C5_validation ⟨true, none, .combobox⟩ "" ⟨[], none, true, -1⟩ .undefinedV (.str "a") []).2.2.2
      rfl,
   (C5_validation ⟨true, none, .combobox⟩ "" ⟨[], none, true, -1⟩ .undefinedV (.num 7) []).2.2.1
      rfl⟩

/-- C10: when an in-flight call A has been superseded by a newer call B and
A settles first — fulfilling or rejecting — A's `finally` clears the shared
loading flag, so the widget leaves the loading state even though B is still
in flight (B's own settlement has not yet been applied). -/
theorem C10_superseded_clears_loading (cfg : FilterConfig) (q : String) (c : Conc)
    (i : Nat) (r : ProviderResult) (e : Rejection) :
    (callAborted c i = true →
      (settleFulfilCall cfg q i r c).state.isLoading = false ∧
      (settleRejectCall i e c).state.isLoading = false) ∧
    (startCall 0 "abc" (startCall 0 "ab" ⟨0, ⟨[], none, false, -1⟩⟩)).state.isLoading = true := by
  constructor
  · intro h
    constructor
    · simp [settleFulfilCall, settleFulfil, h]
    · simp only [settleRejectCall, settleReject, applyCatch]
      split <;> rfl
  · rfl

/-- Witness for C10: in the concrete two-call trace, the superseded call 0
fulfilling (or rejecting) drops the loading flag while call 1 is still
pending. -/
theorem C10_superseded_clears_loading_witness :
    (settleFulfilCall ⟨false, none, .combobox⟩ "ab" 0 (.arr [.str "z"])
        c2TraceStart).state.isLoading = false ∧
    (settleRejectCall 0 ⟨true, "Error", "boom"⟩ c2TraceStart).state.isLoading = false :=
  (C10_superseded_clears_loading ⟨false, none, .combobox⟩ "ab" c2TraceStart 0
    (.arr [.str "z"]) ⟨true, "Error", "boom"⟩).1 rfl

/-- Unfolding of `objectMatches` into the spec's wording: either some
configured (non-empty) match field's string form contains the query, or —
with no match fields configured — the string form of some field value
does. -/
theorem objectMatches_iff (cfg : FilterConfig) (sl : String) (x : JsValue) :
    objectMatches cfg sl x = true ↔
      ((∃ mf, cfg.matchFields = some mf ∧ mf ≠ [] ∧
          ∃ f ∈ mf, jsIncludes (jsToLower (jsToString (getField x f))) sl = true) ∨
       ((cfg.matchFields = none ∨ cfg.matchFields = some []) ∧
          ∃ v ∈ objValues x, jsIncludes (jsToLower (jsToString v)) sl = true)) := by
  unfold objectMatches
  cases hmf : cfg.matchFields with
  | none =>
      simp [List.any_eq_true]
  | some mf =>
      by_cases hlen : mf.length > 0
      · have hne : mf ≠ [] := by
          intro h0
          rw [h0] at hlen
          exact absurd hlen (by simp)
        simp only [hlen, if_pos, List.any_eq_true]
        constructor
        · rintro ⟨f, hf, hinc⟩
          exact Or.inl ⟨mf, rfl, hne, f, hf, hinc⟩
        · rintro (⟨mf', hmf', hne', f, hf, hinc⟩ | ⟨hcontra, -⟩)
          · cases hmf'
            exact ⟨f, hf, hinc⟩
          · rcases hcontra with h | h
            · exact absurd h (by simp)
            · cases h
              exact absurd rfl hne
      · have h0 : mf = [] := by
          cases mf with
          | nil => rfl
          | cons a t => exact absurd (by simp) hlen
        subst h0
        simp [List.any_eq_true]

/-- C3: the filter contract — the full candidate set for an empty query and
for dropdown-type widgets; for string items exactly those whose value
contains the query case-insensitively; for record items exactly those where
some configured match field (or, with none configured, the string form of
some field value) contains the query case-insensitively; and the result is
always a sublist of the input, preserving source order. -/
theorem C3_filterItems_contract (cfg : FilterConfig) (q : String) (items : List JsValue) :
    (q = "" → filterItems cfg q items = items) ∧
    (cfg.type = .dropdown → filterItems cfg q items = items) ∧
    List.Sublist (filterItems cfg q items) items ∧
    (q ≠ "" → cfg.type = .combobox → cfg.isStringType = true →
      ∀ x, x ∈ filterItems cfg q items ↔
        x ∈ items ∧ jsIncludes (jsToLower (jsToString x)) (jsToLower q) = true) ∧
    (q ≠ "" → cfg.type = .combobox → cfg.isStringType = false →
      ∀ x, x ∈ filterItems cfg q items ↔
        x ∈ items ∧
          ((∃ mf, cfg.matchFields = some mf ∧ mf ≠ [] ∧
              ∃ f ∈ mf, jsIncludes (jsToLower (jsToString (getField x f)))
                (jsToLower q) = true) ∨
           ((cfg.matchFields = none ∨ cfg.matchFields = some []) ∧
              ∃ v ∈ objValues x, jsIncludes (jsToLower (jsToString v))
                (jsToLower q) = true))) := by
  refine ⟨?_, ?_, ?_, ?_, ?_⟩
  · intro h
    simp [filterItems, h]
  · intro h
    by_cases hq : q = "" <;> simp [filterItems, h, hq]
  · by_cases hq : q = ""
    · simp [filterItems, hq]
    · by_cases ht : cfg.type = .dropdown
      · simp [filterItems, hq, ht]
      · by_cases hs : cfg.isStringType <;>
          simp [filterItems, hq, ht, hs, List.filter_sublist]
  · intro hq ht hs x
    have hd : cfg.type ≠ .dropdown := by rw [ht]; intro h; cases h
    simp [filterItems, hq, hd, hs, List.mem_filter]
  · intro hq ht hs x
    have hd : cfg.type ≠ .dropdown := by rw [ht]; intro h; cases h
    have hfe : filterItems cfg q items =
        items.filter (fun item => objectMatches cfg (jsToLower q) item) := by
      simp [filterItems, hq, hd, hs]
    rw [hfe, List.mem_filter]
    exact and_congr_right (fun _ => objectMatches_iff cfg (jsToLower q) x)

/-- Witness for C3: the query "al" over the string items ["Alpha", "Beta"]
keeps exactly "Alpha" (case-insensitive containment). -/
theorem C3_filterItems_contract_witness :
    JsValue.str "Alpha" ∈ filterItems ⟨true, none, .combobox⟩ "al" [.str "Alpha", .str "Beta"]
      ∧ ¬ JsValue.str "Beta" ∈
          filterItems ⟨true, none, .combobox⟩ "al" [.str "Alpha", .str "Beta"] := by
  have h := (C3_filterItems_contract ⟨true, none, .combobox⟩ "al"
    [.str "Alpha", .str "Beta"]).2.2.2.1 (by decide) rfl rfl
  constructor
  · exact (h (.str "Alpha")).mpr ⟨List.mem_cons_self _ _, rfl⟩
  · intro hmem
    have hB := ((h (.str "Beta")).mp hmem).2
    have hf : jsIncludes (jsToLower (jsToString (JsValue.str "Beta"))) (jsToLower "al")
        = false := rfl
    rw [hf] at hB
    exact absurd hB (by decide)

/-- The code's auto-placement decision tree coincides with the spec's
priority-ordered rendering of it (below → right/left with the
strictly-more-space tie-break → above → below fallback). -/
theorem chooseAutoPosition_eq_spec (ab atop ar al aft h w : Int) :
    chooseAutoPosition ab atop ar al aft h w = specChoosePlacement ab atop ar al aft h w := by
  unfold chooseAutoPosition specChoosePlacement
  split_ifs <;> first | rfl | omega

/-- C8 counterexample: auto placement with an EMPTY candidate set (count 0,
row height 32, max height 300) in a 200x530 viewport with the trigger at
rect top=400, bottom=430, left=0, right=200, width=200. The code estimates
the height as `listHeight || maxHeight` = 300 (not the claim's
`min(0*32, 300)` = 0) and resolves `above`; the claim's formula demands
`below` (0 height always fits below). -/
theorem C8_counterexample :
    resolvePosition .auto 200 530 ⟨400, 430, 0, 200, 200⟩ 0 32 300 .unset =
      DropdownPosition.above ∧
    specResolvePosition .auto 200 530 ⟨400, 430, 0, 200, 200⟩ 0 32 300 .unset =
      DropdownPosition.below ∧
    DropdownPosition.above ≠ DropdownPosition.below := by
  refine ⟨by decide, by decide, by decide⟩

/-- C8 (amended): the resolved placement follows the claimed priority order
(below; else right when width fits right and height fits from trigger top
to viewport bottom; else left symmetrically, the side with strictly more
horizontal space winning when both qualify; else above; else below), and
fixed placements bypass resolution — but the estimated height is
`min(count × rowHeight, maxHeight)` only for a non-empty candidate set
(positive row height); when the computed list height is 0 (in particular
for an empty candidate set) it falls back to `maxHeight`. -/
theorem C8_placement (pos : DropdownPosition) (innerWidth innerHeight : Int) (rect : Rect)
    (count : Nat) (rowHeight maxHeight : Int) (dw : DropWidth) :
    resolvePosition pos innerWidth innerHeight rect count rowHeight maxHeight dw =
      (if pos = .auto then
        specChoosePlacement (innerHeight - rect.bottom) rect.top (innerWidth - rect.right)
          rect.left (innerHeight - rect.top)
          (estimatedHeight (listHeight count rowHeight maxHeight) maxHeight)
          (estimatedWidth dw rect.width)
      else pos) ∧
    (count = 0 → estimatedHeight (listHeight count rowHeight maxHeight) maxHeight = maxHeight) ∧
    (1 ≤ count → 1 ≤ rowHeight →
      estimatedHeight (listHeight count rowHeight maxHeight) maxHeight =
        specEstimatedHeight count rowHeight maxHeight) := by
  refine ⟨?_, ?_, ?_⟩
  · unfold resolvePosition
    split_ifs with h
    · exact chooseAutoPosition_eq_spec _ _ _ _ _ _ _
    · rfl
  · intro h
    subst h
    have hl : listHeight 0 rowHeight maxHeight = min 0 maxHeight := by
      unfold listHeight
      rw [if_neg (by omega)]
    rw [hl]
    unfold estimatedHeight
    split_ifs <;> omega
  · intro hc hr
    have hpos : 0 < count := hc
    have hl : listHeight count rowHeight maxHeight =
        min ((count : Int) * rowHeight) maxHeight := by
      unfold listHeight
      rw [if_pos hpos]
    rw [hl]
    unfold estimatedHeight specEstimatedHeight
    have h1 : (1 : Int) ≤ (count : Int) := by exact_mod_cast hc
    have hcr : (1 : Int) ≤ (count : Int) * rowHeight := by nlinarith
    generalize (count : Int) * rowHeight = p at hcr ⊢
    split_ifs <;> omega

/-- Witness for C8 (amended): the fixed placement `below` passes through,
and the two height formulas evaluated at an empty and a five-element
candidate set. -/
theorem C8_placement_witness :
    resolvePosition DropdownPosition.below 200 530 ⟨400, 430, 0, 200, 200⟩ 5 32 300 .unset =
      DropdownPosition.below ∧
    estimatedHeight (listHeight 0 32 300) 300 = 300 ∧
    estimatedHeight (listHeight 5 32 300) 300 = specEstimatedHeight 5 32 300 := by
  have h0 := C8_placement DropdownPosition.below 200 530 ⟨400, 430, 0, 200, 200⟩ 0 32 300 .unset
  have h5 := C8_placement DropdownPosition.below 200 530 ⟨400, 430, 0, 200, 200⟩ 5 32 300 .unset
  refine ⟨?_, h0.2.1 rfl, h5.2.2 (by omega) (by omega)⟩
  rw [h5.1]
  rfl

/-- Filtering out the entries carrying identity `kex` does not change
whether some entry carries a different identity `k`. -/
theorem any_filter_other_key {α κ : Type} [DecidableEq κ] (keyOf : α → κ) (l : List α)
    (kex k : κ) (hk : k ≠ kex) :
    ((l.filter fun s => decide ¬(keyOf s = kex)).any fun s => decide (keyOf s = k)) =
      (l.any fun s => decide (keyOf s = k)) := by
  induction l with
  | nil => rfl
  | cons a t ih =>
      by_cases ha : keyOf a = kex
      · rw [List.filter_cons_of_neg (by simp [ha]), ih, List.any_cons,
          decide_eq_false (show ¬(keyOf a = k) by rw [ha]; exact Ne.symm hk), Bool.false_or]
      · rw [List.filter_cons_of_pos (by simp [ha]), List.any_cons, List.any_cons, ih]

/-- Double toggle in one closed form: when the item's identity was selected,
it is re-appended at the end after removal; when it was not, the selection
returns to exactly its original value. -/
theorem toggleSelect_twice {α κ : Type} [DecidableEq κ] (keyOf : α → κ) (l : List α)
    (item : α) :
    toggleSelect keyOf (toggleSelect keyOf l item) item =
      (if (l.any fun s => decide (keyOf s = keyOf item)) = true then
        (l.filter fun s => decide ¬(keyOf s = keyOf item)) ++ [item]
      else l) := by
  by_cases hmem : (l.any fun s => decide (keyOf s = keyOf item)) = true
  · rw [if_pos hmem]
    have h1 : toggleSelect keyOf l item =
        l.filter fun s => decide ¬(keyOf s = keyOf item) := by
      rw [toggleSelect, if_pos hmem]
    rw [h1]
    have h2 : ((l.filter fun s => decide ¬(keyOf s = keyOf item)).any
        fun s => decide (keyOf s = keyOf item)) = false := by
      rw [List.any_eq_false]
      intro x hx
      have := List.of_mem_filter hx
      simp only [decide_eq_true_eq] at this ⊢
      exact this
    rw [toggleSelect, if_neg (by simp [h2])]
  · rw [if_neg hmem]
    have h1 : toggleSelect keyOf l item = l ++ [item] := by
      rw [toggleSelect, if_neg hmem]
    rw [h1]
    have h2 : ((l ++ [item]).any fun s => decide (keyOf s = keyOf item)) = true := by
      simp
    rw [toggleSelect, if_pos h2, List.filter_append]
    have h3 : (l.filter fun s => decide ¬(keyOf s = keyOf item)) = l := by
      rw [List.filter_eq_self]
      intro a ha
      have hb : decide (keyOf a = keyOf item) = false := by
        rcases Bool.eq_false_or_eq_true (decide (keyOf a = keyOf item)) with hb | hb
        · exact absurd (List.any_eq_true.mpr ⟨a, ha, hb⟩) hmem
        · exact hb
      simp [of_decide_eq_false hb]
    have h4 : ([item].filter fun s => decide ¬(keyOf s = keyOf item)) = [] := by
      simp
    rw [h3, h4, List.append_nil]

/-- C9 counterexample: committed selection ["a","b"] (both selected), open
in multi-select, toggle "a" twice, close: the committed selection becomes
["b","a"] — "a" moved to the end — not the original ["a","b"]. -/
theorem C9_counterexample :
    (doubleToggleSession (fun s : String => s) ["a", "b"] "a").displayed = some ["b", "a"] ∧
    some ["b", "a"] ≠ some ["a", "b"] := by
  exact ⟨rfl, by decide⟩

/-- C9 (amended): after opening a multi-select session on committed
selection `l`, toggling the same item twice in a row and closing, the
committed selection holds the same item identities as before (unchanged as
a set of identities, with no duplicates introduced); it is exactly `l` when
the item was not previously selected, while a previously selected item is
removed and re-appended at the end (same membership, order possibly
changed). -/
theorem C9_double_toggle {α κ : Type} [DecidableEq κ] (keyOf : α → κ) (l : List α)
    (item : α) :
    (doubleToggleSession keyOf l item).displayed =
      some (toggleSelect keyOf (toggleSelect keyOf l item) item) ∧
    ((∀ s ∈ l, keyOf s ≠ keyOf item) →
      toggleSelect keyOf (toggleSelect keyOf l item) item = l) ∧
    (∀ k : κ, ((toggleSelect keyOf (toggleSelect keyOf l item) item).any
        fun s => decide (keyOf s = k)) = (l.any fun s => decide (keyOf s = k))) := by
  refine ⟨rfl, ?_, ?_⟩
  · intro h
    rw [toggleSelect_twice, if_neg]
    rw [List.any_eq_true]
    rintro ⟨x, hx, hxk⟩
    exact h x hx (by simpa using hxk)
  · intro k
    rw [toggleSelect_twice]
    split_ifs with hmem
    · by_cases hk : k = keyOf item
      · have hL : (((l.filter fun s => decide ¬(keyOf s = keyOf item)) ++ [item]).any
            fun s => decide (keyOf s = k)) = true := by
          apply List.any_eq_true.mpr
          exact ⟨item, by simp, by simp [hk]⟩
        rw [hL, hk, hmem]
      · rw [List.any_append]
        have hni : ¬ (keyOf item = k) := fun h => hk h.symm
        have hitem : ([item].any fun s => decide (keyOf s = k)) = false := by
          simp [hni]
        rw [hitem, Bool.or_false]
        exact any_filter_other_key keyOf l (keyOf item) k hk
    · rfl

/-- Witness for C9 (amended): toggling "c" (not selected) twice over
["a","b"] restores exactly ["a","b"], and the identity sets agree. -/
theorem C9_double_toggle_witness :
    toggleSelect (fun s : String => s) (toggleSelect (fun s : String => s) ["a", "b"] "c") "c"
      = ["a", "b"] ∧
    ((toggleSelect (fun s : String => s)
        (toggleSelect (fun s : String => s) ["a", "b"] "a") "a").any
      fun s => decide (s = "a")) = (["a", "b"].any fun s => decide (s = "a")) :=
  ⟨(C9_double_toggle (fun s : String => s) ["a", "b"] "c").2.1 (by decide),
   (C9_double_toggle (fun s : String => s) ["a", "b"] "a").2.2 "a"⟩

end LookupModel
